import Mathlib

/-!
# nuevotwitter-back: tweet service handlers over a relational store

A shallow embedding of the request handlers of `main.go` (`createTweet`,
`likeTweet`, `replyTweet`, helper `ifEmpty`).  The relational store is explicit
state: a list of tweet rows and a list of like rows.  Everything the handlers
cannot control (whether a statement fails, which values `UUID()` returns, what
the JSON decoder produced) is an explicit input, so every handler is a total
function from the store before the request to the response and the store after.
-/

namespace NuevoTwitter

/-! ## Data model -/

/-- One row of the `tweets` table, restricted to the columns the write handlers
touch (`created_at` is only read by `listTweets`). -/
structure Tweet where
  id : String
  text : String
  authorId : String
  conversationId : String
  replyToId : String
  quotedId : String
  likeCount : Nat
  replyCount : Nat
deriving DecidableEq

/-- One row of the `likes` table: `(user_id, tweet_id)`. -/
structure Like where
  userId : String
  tweetId : String
deriving DecidableEq

/-- The relational store: the rows of `tweets` and of `likes`, in insertion order. -/
structure Store where
  tweets : List Tweet
  likes : List Like
deriving DecidableEq

/-- The store with no rows. -/
def Store.empty : Store := ⟨[], []⟩

/-- The request body struct `TweetIn` of `main.go`; a field absent from the JSON
(all but `text` are `omitempty`) keeps the zero value `""`. -/
structure TweetIn where
  Text : String
  ConversationID : String
  ReplyToID : String
  QuotedID : String
deriving DecidableEq

/-- What `json.NewDecoder(r.Body).Decode(&in)` left behind: the value of `in`
afterwards and whether an error was returned (malformed JSON, or a JSON value
of the wrong type for a field, such as a number for `text`). -/
structure Body where
  inp : TweetIn
  err : Bool
deriving DecidableEq

/-- What the store does during one request: which statements fail and which
values the two `UUID()` calls return.  `uuidSel` is the result of the
`SELECT UUID()` of `ifEmpty` (`none`: the query or the scan failed, the error is
dropped and the argument is left as it was); `uuidIns` is the value of `UUID()`
inside the `INSERT INTO tweets` statement. -/
structure Env where
  uuidSel : Option String
  uuidIns : String
  beginErr : Bool
  queryErr : Bool
  insertErr : Bool
  updateErr : Bool
  commitErr : Bool
deriving DecidableEq

/-- What the handler did to the `http.ResponseWriter`: the status codes passed to
`WriteHeader` / `http.Error`, in call order, and whether the handler panicked
(then `net/http` recovers and the connection is closed). -/
structure Response where
  writes : List Nat
  panicked : Bool
deriving DecidableEq

/-- The status the client receives: the first one written (`net/http` drops a
later `WriteHeader` call as superfluous). -/
def Response.status (r : Response) : Option Nat := r.writes.head?

/-! ## Statements -/

/-- Modelled from the spec: the schema of `tweets` is not in the repository.  The
spec gives `id` as a unique identifier and the counters as non-negative integers
that are not in the column list of the `INSERT`; so a row whose id is already
present is refused (duplicate key) and the caller passes counters `0`. -/
def insertTweet (s : Store) (row : Tweet) : Option Store :=
  if row.id ∈ s.tweets.map (fun t => t.id) then none
  else some { s with tweets := s.tweets ++ [row] }

/-- Modelled from the spec: the schema of `likes` is not in the repository.  The
spec gives `(userId, tweetId)` as composite key and no reference to `tweets`; so
`INSERT IGNORE INTO likes (user_id,tweet_id) VALUES (?,?)` adds the row when the
pair is new (1 row affected) and does nothing when it is present (0 rows). -/
def insertIgnoreLike (s : Store) (l : Like) : Store × Nat :=
  if l ∈ s.likes then (s, 0)
  else ({ s with likes := s.likes ++ [l] }, 1)

/-- Row update of `SET like_count = like_count+1 WHERE id=?`. -/
def bumpLike (tid : String) (t : Tweet) : Tweet :=
  if t.id = tid then { t with likeCount := t.likeCount + 1 } else t

/-- Row update of `SET reply_count=reply_count+1 WHERE id=?`. -/
def bumpReply (pid : String) (t : Tweet) : Tweet :=
  if t.id = pid then { t with replyCount := t.replyCount + 1 } else t

/-- `UPDATE tweets SET like_count = like_count+1 WHERE id=?`. -/
def updateLikeCount (s : Store) (tid : String) : Store :=
  { s with tweets := s.tweets.map (bumpLike tid) }

/-- `UPDATE tweets SET reply_count=reply_count+1 WHERE id=?`. -/
def updateReplyCount (s : Store) (pid : String) : Store :=
  { s with tweets := s.tweets.map (bumpReply pid) }

/-- `SELECT conversation_id FROM tweets WHERE id=?` scanned into one string:
the first matching row, `none` when there is no row (`sql.ErrNoRows`). -/
def selectConversationId (s : Store) (pid : String) : Option String :=
  (s.tweets.find? (fun t => decide (t.id = pid))).map (fun t => t.conversationId)

/-- `tx.Commit()`: the work of the transaction `s1` replaces the store `s0` the
transaction started from, unless the commit fails. -/
def commit (e : Env) (s0 s1 : Store) : Store :=
  if e.commitErr then s0 else s1

/-! ## Handlers -/

/-- `ifEmpty` of `main.go`: an empty conversation id is replaced by the result of
a separate `SELECT UUID()`; the scan error is dropped. -/
def ifEmpty (e : Env) (cID : String) : String :=
  if cID = "" then
    match e.uuidSel with
    | some u => u
    | none => cID
  else cID

/-- `createTweet` of `main.go` (`POST /api/tweets`). -/
def createTweet (s : Store) (e : Env) (uid : String) (b : Body) : Response × Store :=
  if b.err then (⟨[400], false⟩, s)
  else
    let row : Tweet :=
      { id := e.uuidIns, text := b.inp.Text, authorId := uid,
        conversationId := ifEmpty e b.inp.ConversationID,
        replyToId := b.inp.ReplyToID, quotedId := b.inp.QuotedID,
        likeCount := 0, replyCount := 0 }
    match (if e.insertErr then none else insertTweet s row) with
    | none => (⟨[500], false⟩, s)
    | some s1 => (⟨[201], false⟩, s1)

/-- `likeTweet` of `main.go` (`POST /api/tweets/{id}/like`).  The error of
`db.Begin()` is discarded, so a failed begin leaves `tx` nil and `tx.Exec`
panics.  After `WriteHeader(201)` control falls through to `tx.Commit()` and
`WriteHeader(204)`; the error of `tx.Commit()` is discarded. -/
def likeTweet (s : Store) (e : Env) (uid tid : String) : Response × Store :=
  if e.beginErr then (⟨[], true⟩, s)
  else if e.insertErr then (⟨[500], false⟩, s)
  else
    let res := insertIgnoreLike s ⟨uid, tid⟩
    if res.2 = 1 then
      if e.updateErr then (⟨[500], false⟩, s)
      else (⟨[201, 204], false⟩, commit e s (updateLikeCount res.1 tid))
    else (⟨[204], false⟩, commit e s res.1)

/-- `replyTweet` of `main.go` (`POST /api/tweets/{parentId}/reply`).  The decode
error is discarded; any error of the parent lookup answers 404. -/
def replyTweet (s : Store) (e : Env) (uid pid : String) (b : Body) : Response × Store :=
  match (if e.queryErr then none else selectConversationId s pid) with
  | none => (⟨[404], false⟩, s)
  | some convid =>
    if e.beginErr then (⟨[500], false⟩, s)
    else
      let row : Tweet :=
        { id := e.uuidIns, text := b.inp.Text, authorId := uid,
          conversationId := convid, replyToId := pid, quotedId := b.inp.QuotedID,
          likeCount := 0, replyCount := 0 }
      match (if e.insertErr then none else insertTweet s row) with
      | none => (⟨[500], false⟩, s)
      | some s1 =>
        if e.updateErr then (⟨[500], false⟩, s)
        else (⟨[201], false⟩, commit e s (updateReplyCount s1 pid))

/-! ## Request sequences -/

/-- The three write requests, with the verified caller id, the path id and the
decoded body. -/
inductive Request where
  | create (uid : String) (b : Body)
  | like (uid : String) (tid : String)
  | reply (uid : String) (pid : String) (b : Body)
deriving DecidableEq

/-- Routing of one request to its handler. -/
def handle (s : Store) (e : Env) : Request → Response × Store
  | .create uid b => createTweet s e uid b
  | .like uid tid => likeTweet s e uid tid
  | .reply uid pid b => replyTweet s e uid pid b

/-- The store after serving the requests one after the other. -/
def run (s : Store) : List (Env × Request) → Store
  | [] => s
  | (e, r) :: rest => run (handle s e r).2 rest

/-- An environment with no failure, returning `u1` from `SELECT UUID()` and `u2`
from the `UUID()` of the insert. -/
def Env.ok (u1 u2 : String) : Env :=
  ⟨some u1, u2, false, false, false, false, false⟩

/-! ## Observations and invariants -/

/-- The like counter of the tweet with id `tid`: `none` when no row has that id. -/
def likeCountOf (s : Store) (tid : String) : Option Nat :=
  (s.tweets.find? (fun t => decide (t.id = tid))).map (fun t => t.likeCount)

/-- No statement of the request fails. -/
@[reducible]
def Env.noFailure (e : Env) : Prop :=
  e.beginErr = false ∧ e.queryErr = false ∧ e.insertErr = false ∧
    e.updateErr = false ∧ e.commitErr = false

/-- Number of rows of `likes` whose `tweet_id` is `tid`. -/
def likeRows (s : Store) (tid : String) : Nat :=
  s.likes.countP (fun l => decide (l.tweetId = tid))

/-- Number of rows of `tweets` whose `reply_to_id` is `tid`. -/
def replyRows (s : Store) (tid : String) : Nat :=
  s.tweets.countP (fun t => decide (t.replyToId = tid))

/-- Every tweet row carries in `like_count` the number of its like rows. -/
def LikeCountInv (s : Store) : Prop :=
  ∀ t ∈ s.tweets, t.likeCount = likeRows s t.id

/-- Uniqueness of `UUID()` against the ids clients have sent: the id generated
for a row inserted by `createTweet` or `replyTweet` is not already the
`tweet_id` of a like row.  (A like request names its tweet id in the path and
`likes` does not reference `tweets`, so like rows for ids that are not tweets
can exist.)  A like request generates no id. -/
def uuidFresh (s : Store) (e : Env) : Request → Bool
  | .like _ _ => true
  | _ => decide (e.uuidIns ∉ s.likes.map (fun l => l.tweetId))

/-- Freshness of the generated id at every step of a request sequence. -/
def freshRun : Store → List (Env × Request) → Bool
  | _, [] => true
  | s, (e, r) :: rest => uuidFresh s e r && freshRun (handle s e r).2 rest

/-! ## Example data -/

/-- A top-level tweet by bob, as `createTweet` stores it. -/
def tweetT1 : Tweet :=
  { id := "t1", text := "hello", authorId := "bob", conversationId := "c1",
    replyToId := "", quotedId := "", likeCount := 0, replyCount := 0 }

/-- A store holding the single tweet `t1` and no like. -/
def storeT1 : Store := ⟨[tweetT1], []⟩

/-- A store whose only failure is the commit. -/
def envCommitFails : Env :=
  ⟨some "u1", "u2", false, false, false, false, true⟩

/-- A body that decoded without error. -/
def bodyOf (text conv replyTo quoted : String) : Body :=
  ⟨⟨text, conv, replyTo, quoted⟩, false⟩

/-- A parent tweet with two replies and one like already counted. -/
def tweetP1 : Tweet :=
  { id := "p1", text := "parent", authorId := "bob", conversationId := "c0",
    replyToId := "", quotedId := "", likeCount := 1, replyCount := 2 }

/-- A store holding the parent `p1`, its two replies and one like of `p1`. -/
def storeThread : Store :=
  ⟨[tweetP1,
    { id := "r1", text := "one", authorId := "carol", conversationId := "c0",
      replyToId := "p1", quotedId := "", likeCount := 0, replyCount := 0 },
    { id := "r2", text := "two", authorId := "dave", conversationId := "c0",
      replyToId := "p1", quotedId := "", likeCount := 0, replyCount := 0 }],
   [⟨"carol", "p1"⟩]⟩

/-- A sequence with a tweet, a repeated like, a like of an id that is no tweet,
a failed like, a reply and a like of the reply. -/
def sampleRun : List (Env × Request) :=
  [(Env.ok "c1" "t1", .create "bob" (bodyOf "hello" "" "" "")),
   (Env.ok "x" "x", .like "alice" "t1"),
   (Env.ok "x" "x", .like "alice" "t1"),
   (Env.ok "x" "x", .like "bob" "ghost"),
   (envCommitFails, .like "carol" "t1"),
   (Env.ok "c2" "t2", .reply "carol" "t1" (bodyOf "re" "" "" "")),
   (Env.ok "x" "x", .like "bob" "t2")]

/-- Bob posts a tweet (stored with id `t1`, conversation `c1`); alice then posts
through `createTweet` a body naming `t1` as `replyToId` and `c1` as
`conversationId`. -/
def replyViaCreate : List (Env × Request) :=
  [(Env.ok "c1" "t1", .create "bob" (bodyOf "hello" "" "" "")),
   (Env.ok "c2" "t2", .create "alice" (bodyOf "re" "c1" "t1" ""))]

/-- Bob posts a tweet (stored with id `t1`, conversation `c1`); alice then posts
through `createTweet` a body naming `t1` as `replyToId` and no conversation. -/
def replyViaCreateNoConv : List (Env × Request) :=
  [(Env.ok "c1" "t1", .create "bob" (bodyOf "hello" "" "" "")),
   (Env.ok "c2" "t2", .create "alice" (bodyOf "re" "" "t1" ""))]

/-! ## Lemmas on the statements -/

theorem selectConversationId_eq_none (s : Store) (pid : String)
    (h : ∀ t ∈ s.tweets, t.id ≠ pid) : selectConversationId s pid = none := by
  unfold selectConversationId
  rw [Option.map_eq_none', List.find?_eq_none]
  intro t ht
  simpa using h t ht

/-! ## replyTweet: missing parent -/

/-- C6: when no stored tweet has the id `pid`, `replyTweet` writes the single
status 404 and returns the store unchanged, whatever the body (decoded or not)
and whatever the store would have done. -/
theorem replyTweet_missing_parent (s : Store) (e : Env) (uid pid : String) (b : Body)
    (h : ∀ t ∈ s.tweets, t.id ≠ pid) :
    replyTweet s e uid pid b = (⟨[404], false⟩, s) := by
  unfold replyTweet
  rw [selectConversationId_eq_none s pid h]
  simp

/-- Witness of C6: a reply to the unknown id `nope` on the store holding `t1`. -/
theorem replyTweet_missing_parent_witness :
    (∀ t ∈ storeT1.tweets, t.id ≠ "nope") ∧
      replyTweet storeT1 (Env.ok "u1" "u2") "alice" "nope" (bodyOf "hi" "" "" "") =
        (⟨[404], false⟩, storeT1) :=
  ⟨by decide, replyTweet_missing_parent storeT1 (Env.ok "u1" "u2") "alice" "nope"
    (bodyOf "hi" "" "" "") (by decide)⟩

/-! ## likeTweet: response writes -/

/-- C7, evaluated on a first like: alice likes the existing tweet `t1` with no
store failure.  The like row is recorded and the counter incremented, and the
handler calls `WriteHeader` twice, with 201 and then with 204. -/
theorem likeTweet_first_like_writes_twice :
    likeTweet storeT1 (Env.ok "u1" "u2") "alice" "t1" =
      (⟨[201, 204], false⟩,
        ⟨[{ tweetT1 with likeCount := 1 }], [⟨"alice", "t1"⟩]⟩) := by
  decide

/-! ## createTweet: conversation id of a new thread -/

/-- C8, evaluated on a new top-level tweet: the body has no conversation id, the
insert succeeds, `SELECT UUID()` returned `u1` and the `UUID()` of the insert
`u2`.  The stored row has id `u2` and conversation id `u1`. -/
theorem createTweet_conversationId_differs :
    createTweet Store.empty (Env.ok "u1" "u2") "alice" (bodyOf "hello" "" "" "") =
      (⟨[201], false⟩,
        ⟨[{ id := "u2", text := "hello", authorId := "alice", conversationId := "u1",
            replyToId := "", quotedId := "", likeCount := 0, replyCount := 0 }], []⟩) := by
  decide

/-! ## likeTweet: idempotence -/

theorem bumpLike_id (tid : String) (t : Tweet) : (bumpLike tid t).id = t.id := by
  unfold bumpLike; split <;> rfl

theorem likeCountOf_updateLikeCount (s : Store) (tid : String) (n : Nat)
    (h : likeCountOf s tid = some n) :
    likeCountOf (updateLikeCount s tid) tid = some (n + 1) := by
  unfold likeCountOf updateLikeCount at *
  simp only [List.find?_map, Option.map_map]
  have hfun : ((fun t : Tweet => decide (t.id = tid)) ∘ bumpLike tid) =
      (fun t : Tweet => decide (t.id = tid)) := by
    funext t; simp [bumpLike_id]
  rw [hfun]
  cases hf : s.tweets.find? (fun t => decide (t.id = tid)) with
  | none => simp [hf] at h
  | some t =>
    have hid : t.id = tid := by simpa using List.find?_some hf
    simp [hf] at h
    simp [bumpLike, hid, h]

/-- The store after a like request that meets no failure. -/
theorem likeTweet_noFailure (s : Store) (e : Env) (uid tid : String) (he : e.noFailure) :
    (likeTweet s e uid tid).2 =
      if (⟨uid, tid⟩ : Like) ∈ s.likes then s
      else ⟨s.tweets.map (bumpLike tid), s.likes ++ [⟨uid, tid⟩]⟩ := by
  obtain ⟨hb, -, hi, hu, hc⟩ := he
  unfold likeTweet insertIgnoreLike commit updateLikeCount
  by_cases hl : (⟨uid, tid⟩ : Like) ∈ s.likes <;> simp [hb, hi, hu, hc, hl]

/-- C1: liking twice in a row.  For every store `s`, user `uid` and tweet id
`tid` whose row exists with counter `n`, after two `likeTweet` requests that
meet no store failure the counter of `tid` is `n + 1` when `(uid, tid)` was
not in `likes` and `n` when it was; all other rows are unchanged (the tweet
rows are those of `s`, with the counter of the rows of id `tid` incremented
once in the first case), and the store after the second request is exactly
the store after the first. -/
theorem likeTweet_twice (s : Store) (e1 e2 : Env) (uid tid : String) (n : Nat)
    (h1 : e1.noFailure) (h2 : e2.noFailure) (ht : likeCountOf s tid = some n) :
    (likeTweet (likeTweet s e1 uid tid).2 e2 uid tid).2 = (likeTweet s e1 uid tid).2 ∧
      likeCountOf (likeTweet (likeTweet s e1 uid tid).2 e2 uid tid).2 tid =
        some (if (⟨uid, tid⟩ : Like) ∈ s.likes then n else n + 1) ∧
      (likeTweet (likeTweet s e1 uid tid).2 e2 uid tid).2.tweets =
        (if (⟨uid, tid⟩ : Like) ∈ s.likes then s.tweets
          else s.tweets.map (bumpLike tid)) := by
  rw [likeTweet_noFailure _ e2 uid tid h2, likeTweet_noFailure s e1 uid tid h1]
  by_cases hl : (⟨uid, tid⟩ : Like) ∈ s.likes
  · simp [hl, ht]
  · simp only [hl, if_false, List.mem_append, List.mem_singleton, or_true, if_true, true_and,
      and_true]
    exact likeCountOf_updateLikeCount s tid n ht

/-- Witness of C1: alice likes `t1` twice on the store holding `t1` unliked. -/
theorem likeTweet_twice_witness :
    (Env.ok "u1" "u2").noFailure ∧ likeCountOf storeT1 "t1" = some 0 ∧
      likeCountOf (likeTweet (likeTweet storeT1 (Env.ok "u1" "u2") "alice" "t1").2
        (Env.ok "u1" "u2") "alice" "t1").2 "t1" = some 1 :=
  ⟨by decide, by decide, by
    have h := (likeTweet_twice storeT1 (Env.ok "u1" "u2") (Env.ok "u1" "u2") "alice" "t1" 0
      (by decide) (by decide) (by decide)).2.1
    simpa [storeT1] using h⟩

/-! ## likeTweet: store failures -/

/-- Counterexample to C9: alice likes the existing tweet `t1`, and the only
failing store step is the commit.  The store is left as it was, but the handler
discards the error of `tx.Commit()`: it has written 201 and then 204, and the
client receives 201, not 500. -/
theorem likeTweet_commit_failure_answers_201 :
    envCommitFails.commitErr = true ∧
      likeTweet storeT1 envCommitFails "alice" "t1" = (⟨[201, 204], false⟩, storeT1) ∧
      (likeTweet storeT1 envCommitFails "alice" "t1").1.status ≠ some 500 := by
  decide

/-- C9 as amended.  For every `likeTweet` request whose transaction was begun:
when inserting the like row fails, or the like row is new and incrementing
`like_count` fails, the handler writes the single status 500 and the store is
left as it was; when the commit fails the store is left as it was as well, and
if neither of the two statements failed the response is not 500 but the
success response (201 then 204 written for a new like, 204 for a like that
was present). -/
theorem likeTweet_failure (s : Store) (e : Env) (uid tid : String)
    (hb : e.beginErr = false) :
    ((e.insertErr = true ∨ ((⟨uid, tid⟩ : Like) ∉ s.likes ∧ e.updateErr = true)) →
        likeTweet s e uid tid = (⟨[500], false⟩, s)) ∧
      (e.commitErr = true → (likeTweet s e uid tid).2 = s) ∧
      (e.commitErr = true → e.insertErr = false → e.updateErr = false →
        (likeTweet s e uid tid).1 =
          ⟨if (⟨uid, tid⟩ : Like) ∈ s.likes then [204] else [201, 204], false⟩) := by
  unfold likeTweet insertIgnoreLike commit updateLikeCount
  refine ⟨?_, ?_, ?_⟩
  · rintro (hi | ⟨hl, hu⟩)
    · simp [hb, hi]
    · cases hi : e.insertErr <;> simp [hb, hi, hl, hu]
  · intro hc
    cases hi : e.insertErr <;> cases hu : e.updateErr <;>
      by_cases hl : (⟨uid, tid⟩ : Like) ∈ s.likes <;> simp [hb, hi, hu, hc, hl]
  · intro hc hi hu
    by_cases hl : (⟨uid, tid⟩ : Like) ∈ s.likes <;> simp [hb, hi, hu, hc, hl]

/-- Witness of C9 as amended: the increment fails on a first like of `t1`. -/
theorem likeTweet_failure_witness :
    (⟨some "u1", "u2", false, false, false, true, false⟩ : Env).beginErr = false ∧
      likeTweet storeT1 ⟨some "u1", "u2", false, false, false, true, false⟩ "alice" "t1" =
        (⟨[500], false⟩, storeT1) :=
  ⟨rfl, (likeTweet_failure storeT1 ⟨some "u1", "u2", false, false, false, true, false⟩
    "alice" "t1" rfl).1 (Or.inr ⟨by decide, rfl⟩)⟩

/-! ## createTweet: the text field -/

/-- Counterexample to C10: a well-formed body whose `text` is empty (or absent:
the decoder leaves the zero value), which `Decode` accepts.  The handler
answers 201 and stores a row with empty text. -/
theorem createTweet_empty_text_inserted :
    createTweet Store.empty (Env.ok "u1" "u2") "alice" (bodyOf "" "" "" "") =
      (⟨[201], false⟩,
        ⟨[{ id := "u2", text := "", authorId := "alice", conversationId := "u1",
            replyToId := "", quotedId := "", likeCount := 0, replyCount := 0 }], []⟩) := by
  decide

/-- C10 as amended.  The handler answers 400 exactly when `Decode` returned an
error, and then writes nothing to the store.  For every `createTweet` request
whose body decoded without error, whatever its `text` (empty or absent
included): either the insert goes through, the single status 201 is written
and the store gains exactly one tweet row, which carries the text of the body,
the caller as author and zero counters; or the insert fails (store error or
duplicate id), the single status 500 is written and the store is unchanged. -/
theorem createTweet_decoded (s : Store) (e : Env) (uid : String) (b : Body) :
    ((createTweet s e uid b).1.status = some 400 ↔ b.err = true) ∧
      (b.err = true → createTweet s e uid b = (⟨[400], false⟩, s)) ∧
      (b.err = false → e.insertErr = false → e.uuidIns ∉ s.tweets.map (fun t => t.id) →
        createTweet s e uid b =
          (⟨[201], false⟩,
            ⟨s.tweets ++
              [{ id := e.uuidIns, text := b.inp.Text, authorId := uid,
                 conversationId := ifEmpty e b.inp.ConversationID,
                 replyToId := b.inp.ReplyToID, quotedId := b.inp.QuotedID,
                 likeCount := 0, replyCount := 0 }], s.likes⟩)) ∧
      (b.err = false →
        ¬ (e.insertErr = false ∧ e.uuidIns ∉ s.tweets.map (fun t => t.id)) →
        createTweet s e uid b = (⟨[500], false⟩, s)) := by
  unfold createTweet insertTweet Response.status
  cases hb : b.err <;> cases hi : e.insertErr <;>
    by_cases hd : e.uuidIns ∈ s.tweets.map (fun t => t.id) <;> simp [hd]

/-- Witness of C10 as amended: a body with empty text that decoded without
error, posted to the store holding `t1`; the row is stored with empty text. -/
theorem createTweet_decoded_witness :
    (bodyOf "" "" "" "").err = false ∧ (Env.ok "u1" "u2").insertErr = false ∧
      (Env.ok "u1" "u2").uuidIns ∉ storeT1.tweets.map (fun t => t.id) ∧
      createTweet storeT1 (Env.ok "u1" "u2") "alice" (bodyOf "" "" "" "") =
        (⟨[201], false⟩,
          ⟨[tweetT1,
            { id := "u2", text := "", authorId := "alice", conversationId := "u1",
              replyToId := "", quotedId := "", likeCount := 0, replyCount := 0 }], []⟩) :=
  ⟨rfl, rfl, by decide, by
    have h := (createTweet_decoded storeT1 (Env.ok "u1" "u2") "alice"
      (bodyOf "" "" "" "")).2.2.1 rfl rfl (by decide)
    rw [h]; decide⟩

/-! ## replyTweet: effect on the store -/

theorem selectConversationId_of_unique (s : Store) (pid : String) (p : Tweet)
    (hp : p ∈ s.tweets) (hid : p.id = pid) (huniq : ∀ q ∈ s.tweets, q.id = pid → q = p) :
    selectConversationId s pid = some p.conversationId := by
  unfold selectConversationId
  cases hf : s.tweets.find? (fun t => decide (t.id = pid)) with
  | none =>
    rw [List.find?_eq_none] at hf
    exact absurd (by simpa using hid) (hf p hp)
  | some q =>
    have hq : q.id = pid := by simpa using List.find?_some hf
    have hmem : q ∈ s.tweets := List.mem_of_find?_eq_some hf
    simp [huniq q hmem hq]

theorem bumpReply_of_ne (pid : String) (t : Tweet) (h : t.id ≠ pid) : bumpReply pid t = t := by
  unfold bumpReply; simp [h]

/-- Counterexample to C5: alice replies to the existing tweet `p1`; the insert
and the counter update go through and only the commit fails.  The handler
discards the error of `tx.Commit()` and answers 201, the success response,
while the store is the one before the request: no reply row, and `p1` keeps
`replyCount = 2`.  The reply is reported as a success without the store of
case (i), and neither the insert nor the counter update failed. -/
theorem replyTweet_commit_failure_answers_201 :
    envCommitFails.insertErr = false ∧ envCommitFails.updateErr = false ∧
      envCommitFails.commitErr = true ∧
      replyTweet storeThread envCommitFails "alice" "p1" (bodyOf "re" "" "" "") =
        (⟨[201], false⟩, storeThread) := by
  decide

/-- C5 as amended: a reply to an existing parent.  Let `p` be the row of id
`pid` (the only one with that id).  The store after `replyTweet` is one of
two different stores: the store before the request; or the store before the
request in which every row of id `pid` has `replyCount` one higher, every
other tweet row and every like row is as before, and one row is appended
that has `replyToId = pid`, the conversation id of `p`, the caller as author
and zero counters.  If any step fails (lookup, begin, insert, counter update,
commit) or the generated id is taken, the store is the one before the
request.  If lookup, begin, insert and counter update go through, the single
status 201 is written, also when the commit then fails.  If no step fails and
the generated id is new, the store is the second one. -/
theorem replyTweet_effect (s : Store) (e : Env) (uid pid : String) (b : Body) (p : Tweet)
    (hp : p ∈ s.tweets) (hid : p.id = pid) (huniq : ∀ q ∈ s.tweets, q.id = pid → q = p) :
    ((replyTweet s e uid pid b).2 = s ∨
        (replyTweet s e uid pid b).2 =
          ⟨s.tweets.map
              (fun t => if t.id = pid then { t with replyCount := t.replyCount + 1 } else t) ++
            [{ id := e.uuidIns, text := b.inp.Text, authorId := uid,
               conversationId := p.conversationId, replyToId := pid,
               quotedId := b.inp.QuotedID, likeCount := 0, replyCount := 0 }], s.likes⟩) ∧
      (s ≠
          ⟨s.tweets.map
              (fun t => if t.id = pid then { t with replyCount := t.replyCount + 1 } else t) ++
            [{ id := e.uuidIns, text := b.inp.Text, authorId := uid,
               conversationId := p.conversationId, replyToId := pid,
               quotedId := b.inp.QuotedID, likeCount := 0, replyCount := 0 }], s.likes⟩) ∧
      ((e.queryErr = true ∨ e.beginErr = true ∨ e.insertErr = true ∨ e.updateErr = true ∨
          e.commitErr = true ∨ e.uuidIns ∈ s.tweets.map (fun t => t.id)) →
        (replyTweet s e uid pid b).2 = s) ∧
      (e.queryErr = false → e.beginErr = false → e.insertErr = false →
        e.updateErr = false → e.uuidIns ∉ s.tweets.map (fun t => t.id) →
        (replyTweet s e uid pid b).1 = ⟨[201], false⟩) ∧
      (e.noFailure → e.uuidIns ∉ s.tweets.map (fun t => t.id) →
        replyTweet s e uid pid b =
          (⟨[201], false⟩,
            ⟨s.tweets.map
                (fun t => if t.id = pid then { t with replyCount := t.replyCount + 1 } else t) ++
              [{ id := e.uuidIns, text := b.inp.Text, authorId := uid,
                 conversationId := p.conversationId, replyToId := pid,
                 quotedId := b.inp.QuotedID, likeCount := 0, replyCount := 0 }], s.likes⟩)) := by
  have hsel := selectConversationId_of_unique s pid p hp hid huniq
  have hmem : pid ∈ s.tweets.map (fun t => t.id) := List.mem_map.mpr ⟨p, hp, hid⟩
  have hfun : (fun t : Tweet =>
      if t.id = pid then { t with replyCount := t.replyCount + 1 } else t) = bumpReply pid := by
    funext t; rfl
  have hrow : e.uuidIns ∉ s.tweets.map (fun t => t.id) →
      bumpReply pid { id := e.uuidIns, text := b.inp.Text, authorId := uid,
                      conversationId := p.conversationId, replyToId := pid,
                      quotedId := b.inp.QuotedID, likeCount := 0, replyCount := 0 } =
        { id := e.uuidIns, text := b.inp.Text, authorId := uid,
          conversationId := p.conversationId, replyToId := pid,
          quotedId := b.inp.QuotedID, likeCount := 0, replyCount := 0 } := by
    intro hfresh
    apply bumpReply_of_ne
    intro heq
    have heq2 : e.uuidIns = pid := heq
    exact hfresh (heq2 ▸ hmem)
  rw [hfun]
  unfold replyTweet insertTweet commit updateReplyCount
  refine ⟨?_, ?_, ?_, ?_, ?_⟩
  · cases hq : e.queryErr <;> cases hb : e.beginErr <;> cases hi : e.insertErr <;>
      cases hu : e.updateErr <;> cases hc : e.commitErr <;>
      by_cases hd : e.uuidIns ∈ s.tweets.map (fun t => t.id) <;>
      simp [hsel, hd, hrow]
  · intro h
    have hlen := congrArg (fun st : Store => st.tweets.length) h
    simp at hlen
  · rintro (hq | hb | hi | hu | hc | hd)
    · simp [hq]
    · cases hq : e.queryErr <;> simp [hsel, hb]
    · cases hq : e.queryErr <;> cases hb : e.beginErr <;> simp [hsel, hi]
    · cases hq : e.queryErr <;> cases hb : e.beginErr <;> cases hi : e.insertErr <;>
        by_cases hd : e.uuidIns ∈ s.tweets.map (fun t => t.id) <;> simp [hsel, hu, hd]
    · cases hq : e.queryErr <;> cases hb : e.beginErr <;> cases hi : e.insertErr <;>
        cases hu : e.updateErr <;>
        by_cases hd : e.uuidIns ∈ s.tweets.map (fun t => t.id) <;> simp [hsel, hc, hd]
    · cases hq : e.queryErr <;> cases hb : e.beginErr <;> cases hi : e.insertErr <;>
        simp [hsel, hd]
  · intro hq hb hi hu hd
    simp [hsel, hq, hb, hi, hu, hd]
  · rintro ⟨hb, hq, hi, hu, hc⟩ hd
    simp [hsel, hb, hq, hi, hu, hc, hd, hrow]

/-- Witness of C5 as amended: alice replies to `p1`, which has two replies, with
no store failure; `p1` gets `replyCount = 3`, the rows `r1`, `r2` and the like
row are as before and the reply row `u2` is appended. -/
theorem replyTweet_effect_witness :
    tweetP1 ∈ storeThread.tweets ∧ tweetP1.id = "p1" ∧
      (∀ q ∈ storeThread.tweets, q.id = "p1" → q = tweetP1) ∧
      (Env.ok "u1" "u2").noFailure ∧
      (Env.ok "u1" "u2").uuidIns ∉ storeThread.tweets.map (fun t => t.id) ∧
      replyTweet storeThread (Env.ok "u1" "u2") "alice" "p1" (bodyOf "hi" "" "" "") =
        (⟨[201], false⟩,
          ⟨[{ id := "p1", text := "parent", authorId := "bob", conversationId := "c0",
              replyToId := "", quotedId := "", likeCount := 1, replyCount := 3 },
            { id := "r1", text := "one", authorId := "carol", conversationId := "c0",
              replyToId := "p1", quotedId := "", likeCount := 0, replyCount := 0 },
            { id := "r2", text := "two", authorId := "dave", conversationId := "c0",
              replyToId := "p1", quotedId := "", likeCount := 0, replyCount := 0 },
            { id := "u2", text := "hi", authorId := "alice", conversationId := "c0",
              replyToId := "p1", quotedId := "", likeCount := 0, replyCount := 0 }],
           [⟨"carol", "p1"⟩]⟩) :=
  ⟨by decide, rfl, by decide, by decide, by decide, by
    have h := (replyTweet_effect storeThread (Env.ok "u1" "u2") "alice" "p1"
      (bodyOf "hi" "" "" "") tweetP1 (by decide) rfl (by decide)).2.2.2.2
      (by decide) (by decide)
    rw [h]; decide⟩

/-! ## Counter invariants over request sequences -/

theorem bumpReply_id (pid : String) (t : Tweet) : (bumpReply pid t).id = t.id := by
  unfold bumpReply; split <;> rfl

theorem bumpReply_likeCount (pid : String) (t : Tweet) :
    (bumpReply pid t).likeCount = t.likeCount := by
  unfold bumpReply; split <;> rfl

/-- The stores `createTweet` can leave. -/
theorem createTweet_store (s : Store) (e : Env) (uid : String) (b : Body) :
    (createTweet s e uid b).2 = s ∨
      ∃ row : Tweet, row.id = e.uuidIns ∧ row.likeCount = 0 ∧
        (createTweet s e uid b).2 = ⟨s.tweets ++ [row], s.likes⟩ := by
  unfold createTweet insertTweet
  cases hb : b.err <;> cases hi : e.insertErr <;>
    by_cases hd : e.uuidIns ∈ s.tweets.map (fun t => t.id) <;> simp [hd]

/-- The stores `likeTweet` can leave. -/
theorem likeTweet_store (s : Store) (e : Env) (uid tid : String) :
    (likeTweet s e uid tid).2 = s ∨
      ((⟨uid, tid⟩ : Like) ∉ s.likes ∧
        (likeTweet s e uid tid).2 =
          ⟨s.tweets.map (bumpLike tid), s.likes ++ [⟨uid, tid⟩]⟩) := by
  unfold likeTweet insertIgnoreLike commit updateLikeCount
  cases hb : e.beginErr <;> cases hi : e.insertErr <;> cases hu : e.updateErr <;>
    cases hc : e.commitErr <;> by_cases hl : (⟨uid, tid⟩ : Like) ∈ s.likes <;> simp [hl]

/-- The stores `replyTweet` can leave. -/
theorem replyTweet_store (s : Store) (e : Env) (uid pid : String) (b : Body) :
    (replyTweet s e uid pid b).2 = s ∨
      ∃ row : Tweet, row.id = e.uuidIns ∧ row.likeCount = 0 ∧
        (replyTweet s e uid pid b).2 =
          ⟨(s.tweets ++ [row]).map (bumpReply pid), s.likes⟩ := by
  unfold replyTweet insertTweet commit updateReplyCount
  cases hs : selectConversationId s pid <;>
    cases hq : e.queryErr <;> cases hb : e.beginErr <;> cases hi : e.insertErr <;>
    cases hu : e.updateErr <;> cases hc : e.commitErr <;>
    by_cases hd : e.uuidIns ∈ s.tweets.map (fun t => t.id) <;> simp [hd]
  exact Or.inr ⟨_, rfl, rfl, rfl⟩

theorem likeRows_of_fresh (s : Store) (u : String)
    (h : u ∉ s.likes.map (fun l => l.tweetId)) : likeRows s u = 0 := by
  unfold likeRows
  rw [List.countP_eq_zero]
  intro l hl
  simp only [decide_eq_true_eq]
  intro heq
  exact h (List.mem_map.mpr ⟨l, hl, heq⟩)

/-- One request keeps the like counters equal to the numbers of like rows. -/
theorem LikeCountInv_handle (s : Store) (e : Env) (r : Request)
    (hinv : LikeCountInv s) (hf : uuidFresh s e r = true) :
    LikeCountInv (handle s e r).2 := by
  cases r with
  | create uid b =>
    have hfresh : e.uuidIns ∉ s.likes.map (fun l => l.tweetId) := by simpa [uuidFresh] using hf
    rcases createTweet_store s e uid b with h | ⟨row, hid, hlc, h⟩
    · simpa [handle, h] using hinv
    · simp only [handle, h]
      intro t ht
      rcases List.mem_append.mp ht with ht | ht
      · exact hinv t ht
      · have : t = row := by simpa using ht
        subst this
        rw [hlc, hid]
        exact (likeRows_of_fresh s e.uuidIns hfresh).symm
  | like uid tid =>
    rcases likeTweet_store s e uid tid with h | ⟨_, h⟩
    · simpa [handle, h] using hinv
    · simp only [handle, h]
      intro t ht
      obtain ⟨t0, ht0, rfl⟩ := List.mem_map.mp ht
      have h0 := hinv t0 ht0
      unfold likeRows at h0 ⊢
      rw [bumpLike_id, List.countP_append, ← h0]
      by_cases hid : t0.id = tid
      · subst hid
        simp [bumpLike, List.countP_cons]
      · have hne : ¬ tid = t0.id := fun h => hid h.symm
        simp [bumpLike, hid, hne, List.countP_cons]
  | reply uid pid b =>
    have hfresh : e.uuidIns ∉ s.likes.map (fun l => l.tweetId) := by simpa [uuidFresh] using hf
    rcases replyTweet_store s e uid pid b with h | ⟨row, hid, hlc, h⟩
    · simpa [handle, h] using hinv
    · simp only [handle, h]
      intro t ht
      obtain ⟨t0, ht0, rfl⟩ := List.mem_map.mp ht
      rw [bumpReply_likeCount, bumpReply_id]
      rcases List.mem_append.mp ht0 with ht0 | ht0
      · exact hinv t0 ht0
      · have : t0 = row := by simpa using ht0
        subst this
        rw [hlc, hid]
        exact (likeRows_of_fresh s e.uuidIns hfresh).symm

theorem LikeCountInv_run (tr : List (Env × Request)) :
    ∀ s : Store, LikeCountInv s → freshRun s tr = true → LikeCountInv (run s tr) := by
  induction tr with
  | nil => intro s hinv _; exact hinv
  | cons step rest ih =>
    intro s hinv hf
    obtain ⟨e, r⟩ := step
    simp only [freshRun, Bool.and_eq_true] at hf
    exact ih _ (LikeCountInv_handle s e r hinv hf.1) hf.2

/-- Counterexample to C2: bob likes the id `ghost`, which is the id of no tweet;
the like row is recorded.  Alice then posts a tweet and the `UUID()` of the
insert returns `ghost`.  The row is stored with `likeCount = 0` while one like
row has `tweetId = ghost`. -/
theorem likeCount_without_fresh_uuid :
    run Store.empty
        [(Env.ok "x" "x", .like "bob" "ghost"),
         (Env.ok "c1" "ghost", .create "alice" (bodyOf "hello" "" "" ""))] =
        ⟨[{ id := "ghost", text := "hello", authorId := "alice", conversationId := "c1",
            replyToId := "", quotedId := "", likeCount := 0, replyCount := 0 }],
         [⟨"bob", "ghost"⟩]⟩ ∧
      ¬ ∀ t ∈ (run Store.empty
          [(Env.ok "x" "x", .like "bob" "ghost"),
           (Env.ok "c1" "ghost", .create "alice" (bodyOf "hello" "" "" ""))]).tweets,
        t.likeCount = likeRows (run Store.empty
          [(Env.ok "x" "x", .like "bob" "ghost"),
           (Env.ok "c1" "ghost", .create "alice" (bodyOf "hello" "" "" ""))]) t.id := by
  decide

/-- C2 as amended: in every store reached from the empty store by a sequence of
`createTweet`, `likeTweet` and `replyTweet` requests (any callers, any path
ids, any bodies, any store failures), where each generated row id is new
with respect to the tweet ids already named by like rows, every tweet row has
`likeCount` equal to the number of like rows whose `tweetId` is its id. -/
theorem likeCount_eq_likeRows (tr : List (Env × Request))
    (hf : freshRun Store.empty tr = true) :
    ∀ t ∈ (run Store.empty tr).tweets, t.likeCount = likeRows (run Store.empty tr) t.id :=
  LikeCountInv_run tr Store.empty (by intro t ht; simp [Store.empty] at ht) hf

/-- Witness of C2 as amended: the sample sequence; its final store holds `t1` with one
like and `t2` with one like. -/
theorem likeCount_eq_likeRows_witness :
    freshRun Store.empty sampleRun = true ∧
      (run Store.empty sampleRun).tweets.map (fun t => (t.id, t.likeCount)) =
        [("t1", 1), ("t2", 1)] ∧
      ∀ t ∈ (run Store.empty sampleRun).tweets,
        t.likeCount = likeRows (run Store.empty sampleRun) t.id :=
  ⟨by decide, by decide, likeCount_eq_likeRows sampleRun (by decide)⟩

/-! ## createTweet with a client-supplied parent -/

/-- C3, evaluated on a reply posted through `createTweet`: the row `t2` with
`replyToId = t1` is stored and no counter is touched, so `t1` has
`replyCount = 0` while one tweet row replies to it. -/
theorem createTweet_reply_keeps_replyCount :
    run Store.empty replyViaCreate =
        ⟨[{ id := "t1", text := "hello", authorId := "bob", conversationId := "c1",
            replyToId := "", quotedId := "", likeCount := 0, replyCount := 0 },
          { id := "t2", text := "re", authorId := "alice", conversationId := "c1",
            replyToId := "t1", quotedId := "", likeCount := 0, replyCount := 0 }], []⟩ ∧
      replyRows (run Store.empty replyViaCreate) "t1" = 1 ∧
      ¬ ∀ t ∈ (run Store.empty replyViaCreate).tweets,
          t.replyCount = replyRows (run Store.empty replyViaCreate) t.id := by
  decide

/-- C4, evaluated on a reply posted through `createTweet` without conversation
id: the parent is not looked up, `ifEmpty` stores a newly generated value,
and the row `t2` with `replyToId = t1` has conversation `c2` while its parent
`t1` has conversation `c1`. -/
theorem createTweet_reply_other_conversation :
    run Store.empty replyViaCreateNoConv =
      ⟨[{ id := "t1", text := "hello", authorId := "bob", conversationId := "c1",
          replyToId := "", quotedId := "", likeCount := 0, replyCount := 0 },
        { id := "t2", text := "re", authorId := "alice", conversationId := "c2",
          replyToId := "t1", quotedId := "", likeCount := 0, replyCount := 0 }], []⟩ ∧
      ¬ ∀ t ∈ (run Store.empty replyViaCreateNoConv).tweets,
          ∀ q ∈ (run Store.empty replyViaCreateNoConv).tweets,
            t.replyToId = q.id → t.conversationId = q.conversationId := by
  decide

end NuevoTwitter
